import Mathlib

/-!
Shallow embedding of `firmware/stellar.c` (Stellar transaction signing for a
hardware wallet): the signing-session state machine, the canonical hash-update
primitives, the StrKey address codec and its CRC16, and the key-derivation
wrapper.  Bytes are modelled as `Nat` values below 256; the streaming SHA-256
accumulator is modelled by the exact byte stream fed to it (`hashAcc`), since
every property of interest concerns which bytes are appended, and SHA-256
itself is an external primitive of the firmware.  External capabilities
(SHA-256, the BIP32 storage/derivation layer, Ed25519 signing) are passed in as
a `StellarEnv` record of functions, mirroring the C code's calls into
`sha256_*`, `storage_getRootNode`, `hdnode_private_ckd_cached`,
`hdnode_fill_public_key` and `ed25519_sign`.
-/

/-- An HD node as used by the code: `private_key` plus the 33-byte
`public_key` buffer (the code always skips the first byte via
`public_key + 1`). -/
structure HDNode where
  privateKey : List Nat
  publicKey : List Nat
  deriving Repr, DecidableEq

/-- The failure codes this file can emit through `fsm_sendFailure`. -/
inductive FailureType where
  | UnexpectedMessage
  | ActionCancelled
  deriving Repr, DecidableEq

/-- External capabilities of the firmware, as called from `stellar.c`. -/
structure StellarEnv where
  /-- External `sha256_Raw`: one-shot SHA-256 of a byte string. -/
  sha256Raw : List Nat → List Nat
  /-- External `sha256_Final` applied to a context that has absorbed exactly the given
  byte stream. -/
  sha256Final : List Nat → List Nat
  /-- External `storage_getRootNode(&node, "ed25519", true)`: the root node, or `none`
  when the device is not initialized, the passphrase request was cancelled, or
  the curve is unsupported. -/
  getRootNode : Option HDNode
  /-- External `hdnode_private_ckd_cached(&node, address_n, 3, NULL)`: child-key
  derivation along a path; `none` models the `== 0` failure return. -/
  ckdCached : HDNode → List Nat → Option HDNode
  /-- External `hdnode_fill_public_key`. -/
  fillPublicKey : HDNode → HDNode
  /-- External `ed25519_sign(digest, 32, private_key, public_key+1, sig)`:
  digest, private key, public key to 64-byte signature. -/
  ed25519Sign : List Nat → List Nat → List Nat → List Nat

/-- The mutable signing state: the `stellar_signing` global flag plus the
fields of the `StellarTransaction` global `stellar_activeTx` that
`stellar.c` reads or writes.  `hashAcc` is the byte stream fed so far to
`stellar_activeTx.sha256_ctx`. -/
structure StellarTransactionState where
  signing : Bool
  hashAcc : List Nat
  numOperations : Nat
  accountId : List Nat
  accountIndex : Nat
  networkType : Nat
  confirmedOperations : Nat
  xdrOffset : Nat
  memoType : Nat
  deriving Repr, DecidableEq

/-- The C globals before any message: `static bool stellar_signing = false`
and a zero-initialized `stellar_activeTx`. -/
def initialStellarState : StellarTransactionState :=
  { signing := false, hashAcc := [], numOperations := 0, accountId := [],
    accountIndex := 0, networkType := 0, confirmedOperations := 0,
    xdrOffset := 0, memoType := 0 }

/-- The `StellarSignTx` protobuf message (header). `networkPassphrase`,
`memoText` and `memoHash` are byte strings; `memoHash` carries its own size
as its length. -/
structure StellarSignTx where
  networkPassphrase : List Nat
  index : Nat
  fee : Nat
  sequenceNumber : Nat
  timeboundsStart : Nat
  timeboundsEnd : Nat
  memoType : Nat
  memoText : List Nat
  memoId : Nat
  memoHash : List Nat
  numOperations : Nat
  deriving Repr, DecidableEq

/-- The asset inside a Payment operation: `type`, the fixed `code` buffer,
and the issuer bytes (`issuer.size` is the list length). -/
structure StellarAssetType where
  type : Nat
  code : List Nat
  issuer : List Nat
  deriving Repr, DecidableEq

/-- The `StellarTxOpAck` protobuf message (one operation).
`sourceAccount.size > 0` is modelled by a nonempty list. -/
structure StellarTxOpAck where
  sourceAccount : List Nat
  type : Nat
  destinationAccount : List Nat
  amount : Nat
  asset : StellarAssetType
  deriving Repr, DecidableEq

/-- Big-endian serialization of a `uint32_t` (4 bytes, most significant
first), as produced by `stellar_hashupdate_uint32` on the little-endian
target. -/
def be32 (v : Nat) : List Nat :=
  [v / 16777216 % 256, v / 65536 % 256, v / 256 % 256, v % 256]

/-- Big-endian serialization of a `uint64_t` (8 bytes), as produced by
`stellar_hashupdate_uint64`. -/
def be64 (v : Nat) : List Nat :=
  [v / 72057594037927936 % 256, v / 281474976710656 % 256,
   v / 1099511627776 % 256, v / 4294967296 % 256,
   v / 16777216 % 256, v / 65536 % 256, v / 256 % 256, v % 256]

/-- C function `stellar_hashupdate_bytes`: `sha256_Update` appends the raw bytes to the
running accumulator. -/
def stellar_hashupdate_bytes (s : StellarTransactionState) (data : List Nat) :
    StellarTransactionState :=
  { s with hashAcc := s.hashAcc ++ data }

/-- C function `stellar_hashupdate_uint32`: hash the 4 big-endian bytes of the value. -/
def stellar_hashupdate_uint32 (s : StellarTransactionState) (v : Nat) :
    StellarTransactionState :=
  stellar_hashupdate_bytes s (be32 v)

/-- C function `stellar_hashupdate_uint64`: hash the 8 big-endian bytes of the value. -/
def stellar_hashupdate_uint64 (s : StellarTransactionState) (v : Nat) :
    StellarTransactionState :=
  stellar_hashupdate_bytes s (be64 v)

/-- C function `stellar_hashupdate_bool`: `update_u32 1` for true, `update_u32 0` for
false. -/
def stellar_hashupdate_bool (s : StellarTransactionState) (v : Bool) :
    StellarTransactionState :=
  if v then stellar_hashupdate_uint32 s 1 else stellar_hashupdate_uint32 s 0

/-- C function `stellar_hashupdate_string`: length prefix (`update_u32 len`) then the
raw bytes. -/
def stellar_hashupdate_string (s : StellarTransactionState) (data : List Nat) :
    StellarTransactionState :=
  stellar_hashupdate_bytes (stellar_hashupdate_uint32 s data.length) data

/-- C function `stellar_hashupdate_address`: the 4-byte address type (always 0) then 32
raw key bytes. -/
def stellar_hashupdate_address (s : StellarTransactionState)
    (addressBytes : List Nat) : StellarTransactionState :=
  stellar_hashupdate_bytes (stellar_hashupdate_uint32 s 0) (addressBytes.take 32)

/-- C function `stellar_deriveNode`: builds the hardened path `m/44'/148'/index'` and
runs root-node lookup, cached child derivation, and public-key fill; `none`
models the `return 0` on either failure. -/
def stellar_deriveNode (env : StellarEnv) (index : Nat) : Option HDNode :=
  let address_n : List Nat :=
    [0x80000000 ||| 44, 0x80000000 ||| 148, 0x80000000 ||| (index % 4294967296)]
  match env.getRootNode with
  | none => none
  | some root =>
    match env.ckdCached root address_n with
    | none => none
    | some node => some (env.fillPublicKey node)

/-- C function `stellar_getPubkeyAtIndex` with the callers' `outlen = 32`: copies 32
bytes from `node->public_key + 1`.  The C code does not check
`stellar_deriveNode` for NULL and would dereference it; the failure case is
surfaced here as `none`. -/
def stellar_getPubkeyAtIndex (env : StellarEnv) (index : Nat) :
    Option (List Nat) :=
  (stellar_deriveNode env index).map (fun n => (n.publicKey.drop 1).take 32)

/-- The network passphrase literal for the public network, as bytes. -/
def publicNetworkPassphrase : List Nat :=
  ("Public Global Stellar Network ; September 2015".toList).map Char.toNat

/-- The network passphrase literal for the test network, as bytes. -/
def testNetworkPassphrase : List Nat :=
  ("Test SDF Network ; September 2015".toList).map Char.toNat

/-- C function `stellar_signingInit`, part 1: the hash updates up to and including the
time bounds (network hash, transaction type constant, signer address, fee,
sequence number, time bounds), applied to the freshly reset state. -/
def stellar_signingInitThroughTimebounds (env : StellarEnv)
    (msg : StellarSignTx) : StellarTransactionState :=
  -- network_hash is a 32-byte buffer filled by sha256_Raw over
  -- strnlen(network_passphrase, 1024) bytes
  let networkHash := (env.sha256Raw (msg.networkPassphrase.take 1024)).take 32
  -- uint8_t tx_type_bytes[4] = { 0x00, 0x00, 0x00, 0x02 }
  let txTypeBytes : List Nat := [0, 0, 0, 2]
  -- On derivation failure the C code dereferences a null HDNode (undefined
  -- behavior); the bytes read are modelled as zeros.
  let pubkey := (stellar_getPubkeyAtIndex env msg.index).getD (List.replicate 32 0)
  -- memset(&stellar_activeTx, 0, ...); stellar_signing = true; sha256_Init
  let s0 : StellarTransactionState :=
    { signing := true, hashAcc := [], numOperations := msg.numOperations,
      accountId := pubkey, accountIndex := msg.index, networkType := 0,
      confirmedOperations := 0, xdrOffset := 0, memoType := 0 }
  let s1 := stellar_hashupdate_bytes s0 networkHash
  let s2 := stellar_hashupdate_bytes s1 txTypeBytes
  let s3 := stellar_hashupdate_address s2 pubkey
  let s4 := stellar_hashupdate_uint32 s3 msg.fee
  let s5 := stellar_hashupdate_uint64 s4 msg.sequenceNumber
  -- Timebounds present iff either bound is nonzero; hashed as two 64-bit
  -- values each split into a zero high word and the 32-bit bound
  if msg.timeboundsStart > 0 || msg.timeboundsEnd > 0 then
    let t1 := stellar_hashupdate_bool s5 true
    let t2 := stellar_hashupdate_uint32 t1 0
    let t3 := stellar_hashupdate_uint32 t2 msg.timeboundsStart
    let t4 := stellar_hashupdate_uint32 t3 0
    stellar_hashupdate_uint32 t4 msg.timeboundsEnd
  else
    stellar_hashupdate_bool s5 false

/-- C function `stellar_signingInit`: resets the session (`memset` of the whole
`stellar_activeTx` struct — the previous state is discarded entirely),
hashes the header fields in order, and classifies the network.  `_prev` is
the state being overwritten. -/
def stellar_signingInit (env : StellarEnv)
    (_prev : StellarTransactionState) (msg : StellarSignTx) :
    StellarTransactionState :=
  let s6 := stellar_signingInitThroughTimebounds env msg
  -- Hash: memo type, then the type-dependent payload (default: nothing)
  let s7 := stellar_hashupdate_uint32 s6 msg.memoType
  let s8 :=
    match msg.memoType with
    | 0 => s7
    | 1 => stellar_hashupdate_string s7 (msg.memoText.take 28)
    | 2 => stellar_hashupdate_uint64 s7 msg.memoId
    | 3 => stellar_hashupdate_bytes s7 msg.memoHash
    | 4 => stellar_hashupdate_bytes s7 msg.memoHash
    | _ => s7
  -- Hash: number of operations
  let s9 := stellar_hashupdate_uint32 s8 msg.numOperations
  -- Network classification by exact passphrase match
  let networkType :=
    if msg.networkPassphrase = publicNetworkPassphrase then 1
    else if msg.networkPassphrase = testNetworkPassphrase then 2
    else 3
  { s9 with networkType := networkType }

/-- C function `stellar_signingAbort`: clears the signing flag and sends
`Failure_ActionCancelled` to the caller. -/
def stellar_signingAbort (s : StellarTransactionState) :
    StellarTransactionState × List FailureType :=
  ({ s with signing := false }, [FailureType.ActionCancelled])

/-- C function `stellar_allOperationsConfirmed`: `confirmed_operations ==
num_operations`. -/
def stellar_allOperationsConfirmed (s : StellarTransactionState) : Bool :=
  s.confirmedOperations == s.numOperations

/-- C function `stellar_confirmCreateAccountOp`: hashes destination address and starting
amount, then asks for confirmation (`ok`); rejection aborts, acceptance
increments `confirmed_operations`. -/
def stellar_confirmCreateAccountOp (s : StellarTransactionState)
    (msg : StellarTxOpAck) (ok : Bool) :
    StellarTransactionState × List FailureType :=
  let s1 := stellar_hashupdate_address s msg.destinationAccount
  let s2 := stellar_hashupdate_uint64 s1 msg.amount
  if ok then
    ({ s2 with confirmedOperations := s2.confirmedOperations + 1 }, [])
  else
    stellar_signingAbort s2

/-- C function `stellar_confirmPaymentOp`: hashes destination, then the asset — the
asset-type discriminant is hashed only in the `type == 0` branch; `type == 1`
hashes 4 raw code bytes, `type == 2` hashes 12 raw code bytes, and both
custom types then hash the raw issuer bytes — then the amount; finally asks
for confirmation (`ok`). -/
def stellar_confirmPaymentOp (s : StellarTransactionState)
    (msg : StellarTxOpAck) (ok : Bool) :
    StellarTransactionState × List FailureType :=
  let s1 := stellar_hashupdate_address s msg.destinationAccount
  let s2 := if msg.asset.type = 0 then stellar_hashupdate_uint32 s1 msg.asset.type else s1
  let s3 := if msg.asset.type = 1 then stellar_hashupdate_bytes s2 (msg.asset.code.take 4) else s2
  let s4 := if msg.asset.type = 2 then stellar_hashupdate_bytes s3 (msg.asset.code.take 12) else s3
  let s5 := if msg.asset.type = 1 || msg.asset.type = 2
            then stellar_hashupdate_bytes s4 msg.asset.issuer else s4
  let s6 := stellar_hashupdate_uint64 s5 msg.amount
  if ok then
    ({ s6 with confirmedOperations := s6.confirmedOperations + 1 }, [])
  else
    stellar_signingAbort s6

/-- C function `stellar_addOperation`: fails with `Failure_UnexpectedMessage` when not
signing; otherwise hashes the optional source account (after a confirmation
prompt, `srcOk`) or a false boolean, hashes the operation type, dispatches to
the CreateAccount (type 0) or Payment (type 1) confirmation (user decision
`opOk`), and finally hashes the 4-byte reserved trailing union when all
operations are confirmed.  A rejection inside a confirm function returns
from that function only, so the trailing check still runs. -/
def stellar_addOperation (s : StellarTransactionState) (msg : StellarTxOpAck)
    (srcOk opOk : Bool) : StellarTransactionState × List FailureType :=
  if s.signing = false then
    (s, [FailureType.UnexpectedMessage])
  else
    let sourceStep : Option StellarTransactionState :=
      if msg.sourceAccount.length > 0 then
        if srcOk then some (stellar_hashupdate_address s msg.sourceAccount)
        else none
      else some (stellar_hashupdate_bool s false)
    match sourceStep with
    | none => stellar_signingAbort s
    | some s1 =>
      let s2 := stellar_hashupdate_uint32 s1 msg.type
      let r3 := if msg.type = 0 then stellar_confirmCreateAccountOp s2 msg opOk
                else (s2, [])
      let r4 := if msg.type = 1 then stellar_confirmPaymentOp r3.1 msg opOk
                else (r3.1, [])
      let s5 := if stellar_allOperationsConfirmed r4.1
                then stellar_hashupdate_uint32 r4.1 0 else r4.1
      (s5, r3.2 ++ r4.2)

/-- C function `stellar_getSignatureForActiveTx`: derives the node for the session's
account index, finalizes the SHA-256 into a 32-byte digest, and signs it.
The session state is not modified (in particular `stellar_signing` is left
as is) and no failure is ever sent.  The C code does not check the derived
node for NULL and would dereference it; that case is surfaced as `none`
with, faithfully, no failure emitted. -/
def stellar_getSignatureForActiveTx (env : StellarEnv)
    (s : StellarTransactionState) :
    Option (List Nat) × StellarTransactionState × List FailureType :=
  match stellar_deriveNode env s.accountIndex with
  | none => (none, s, [])
  | some node =>
    let toSign := env.sha256Final s.hashAcc
    (some (env.ed25519Sign toSign node.privateKey (node.publicKey.drop 1)),
     s, [])

/-- One bit step of `stellar_crc16`: `bit` is the current message bit,
`c15` the CRC's top bit; the CRC is shifted left (as a `uint16_t`) and
XORed with the polynomial `0x1021` when the two bits differ. -/
def stellar_crc16_bit (crc bit : Nat) : Nat :=
  let c15 := crc / 32768 % 2
  let crc2 := crc * 2 % 65536
  if c15 ^^^ bit = 1 then crc2 ^^^ 0x1021 else crc2

/-- One byte of `stellar_crc16`'s outer loop: the inner loop over
`bitidx = 0..7` takes bit `(byte >> (7 - bitidx)) & 1`. -/
def stellar_crc16_byte (crc b : Nat) : Nat :=
  List.foldl (fun c bitidx => stellar_crc16_bit c (b / 2 ^ (7 - bitidx) % 2))
    crc [0, 1, 2, 3, 4, 5, 6, 7]

/-- C function `stellar_crc16`: initial value `0x0000`, byte loop, final `& 0xffff`. -/
def stellar_crc16 (bytes : List Nat) : Nat :=
  (List.foldl stellar_crc16_byte 0 bytes) % 65536

/-- The eight bits of a byte, most significant first (spec-side view of a
byte as a bit string). -/
def byteBitsMSB (b : Nat) : List Nat :=
  [b / 128 % 2, b / 64 % 2, b / 32 % 2, b / 16 % 2,
   b / 8 % 2, b / 4 % 2, b / 2 % 2, b % 2]

/-- One bit step of the CRC as the spec words it: shift the 16-bit register
left; if the bit shifted out differs from the incoming message bit, XOR in
the polynomial `0x1021`. -/
def crc16_spec_bit (crc bit : Nat) : Nat :=
  let shifted := crc * 2 % 65536
  if crc / 32768 % 2 ≠ bit then shifted ^^^ 0x1021 else shifted

/-- The CRC16 as the spec words it: polynomial `0x1021`, initial value
`0x0000`, computed bit-by-bit MSB-first over the input bytes, no reflection,
no final XOR. -/
def crc16_spec (bytes : List Nat) : Nat :=
  List.foldl crc16_spec_bit 0 (bytes.flatMap byteBitsMSB)

/-- The RFC 4648 base32 alphabet. -/
def base32AlphabetRFC4648 : List Char :=
  "ABCDEFGHIJKLMNOPQRSTUVWXYZ234567".toList

/-- Splits a bit string into 5-bit big-endian groups; a final partial group
is padded with zero bits on the right (RFC 4648 quantum padding). -/
def bitsToBase32Groups : List Nat → List Nat
  | [] => []
  | b0 :: rest =>
    let chunk := b0 :: rest.take 4
    let v := (chunk.foldl (fun a b => a * 2 + b % 2) 0) * 2 ^ (5 - chunk.length)
    v :: bitsToBase32Groups (rest.drop 4)
termination_by l => l.length
decreasing_by simp [List.length_drop]; omega

/-- Modelled from the spec: the repository's `base32_encode` with
`BASE32_ALPHABET_RFC4648` (in `base32.c`, outside the sources given here) —
"a base32 encoder (RFC 4648, unpadded)": the input bytes are read as a bit
string MSB-first, split into 5-bit groups (the last group zero-padded), and
each group is mapped through the RFC 4648 alphabet, with no `=` padding
characters. -/
def base32_encode (data : List Nat) : List Char :=
  (bitsToBase32Groups (data.flatMap byteBitsMSB)).map
    (fun v => base32AlphabetRFC4648.getD v 'A')

/-- C function `stellar_publicAddressAsStr`: payload is the version byte `6 << 3`, 32
key bytes, then the CRC16 of the first 33 bytes appended low byte first; the
35-byte payload is base32-encoded. -/
def stellar_publicAddressAsStr (bytes : List Nat) : List Char :=
  let payload33 := (6 <<< 3) :: bytes.take 32
  let checksum := stellar_crc16 payload33
  base32_encode (payload33 ++ [checksum % 256, checksum / 256 % 256])

theorem crc16_bit_eq_spec (c b : Nat) (hb : b < 2) :
    stellar_crc16_bit c b = crc16_spec_bit c b := by
  unfold stellar_crc16_bit crc16_spec_bit
  have h15 : c / 32768 % 2 = 0 ∨ c / 32768 % 2 = 1 := by omega
  rcases h15 with h | h <;> rcases (by omega : b = 0 ∨ b = 1) with rfl | rfl <;>
    simp [h]

theorem crc16_byte_eq_spec (c b : Nat) :
    stellar_crc16_byte c b = List.foldl crc16_spec_bit c (byteBitsMSB b) := by
  have hbit : ∀ x y : Nat, stellar_crc16_bit x (y % 2) = crc16_spec_bit x (y % 2) :=
    fun x y => crc16_bit_eq_spec x _ (Nat.mod_lt _ (by norm_num))
  simp only [stellar_crc16_byte, byteBitsMSB, List.foldl_cons, List.foldl_nil]
  norm_num
  simp only [hbit]

theorem crc16_fold_eq_spec (bytes : List Nat) : ∀ c : Nat,
    List.foldl stellar_crc16_byte c bytes =
      List.foldl crc16_spec_bit c (bytes.flatMap byteBitsMSB) := by
  induction bytes with
  | nil => intro c; simp
  | cons b bs ih =>
    intro c
    simp only [List.foldl_cons, List.flatMap_cons, List.foldl_append,
      crc16_byte_eq_spec, ih]

theorem crc16_spec_bit_lt (c b : Nat) : crc16_spec_bit c b < 65536 := by
  unfold crc16_spec_bit
  have h2 : c * 2 % 65536 < 65536 := Nat.mod_lt _ (by norm_num)
  split
  · have hx : (c * 2 % 65536) ^^^ 0x1021 < 2 ^ 16 :=
      Nat.xor_lt_two_pow (by simpa using h2) (by norm_num)
    simpa using hx
  · exact h2

theorem crc16_spec_fold_lt (l : List Nat) : ∀ c : Nat, c < 65536 →
    List.foldl crc16_spec_bit c l < 65536 := by
  induction l with
  | nil => intro c hc; simpa using hc
  | cons b bs ih => intro c _; exact ih _ (crc16_spec_bit_lt c b)

theorem stellar_crc16_eq_spec (bytes : List Nat) :
    stellar_crc16 bytes = crc16_spec bytes := by
  unfold stellar_crc16 crc16_spec
  rw [crc16_fold_eq_spec]
  exact Nat.mod_eq_of_lt (crc16_spec_fold_lt _ 0 (by norm_num))

theorem bitsToBase32Groups_length (l : List Nat) :
    (bitsToBase32Groups l).length = (l.length + 4) / 5 := by
  induction l using bitsToBase32Groups.induct with
  | case1 => simp [bitsToBase32Groups]
  | case2 b0 rest ih =>
    rw [bitsToBase32Groups]
    simp only [List.length_cons, ih, List.length_drop]
    omega

theorem flatMap_byteBits_length (data : List Nat) :
    (data.flatMap byteBitsMSB).length = 8 * data.length := by
  induction data with
  | nil => simp
  | cons b bs ih =>
    rw [List.flatMap_cons, List.length_append, ih]
    have hb : (byteBitsMSB b).length = 8 := rfl
    rw [hb, List.length_cons]; ring

theorem base32_encode_length (data : List Nat) :
    (base32_encode data).length = (8 * data.length + 4) / 5 := by
  unfold base32_encode
  rw [List.length_map, bitsToBase32Groups_length, flatMap_byteBits_length]

/-- C6: for every 32-byte public key, `stellar_publicAddressAsStr` is exactly
the unpadded RFC 4648 base32 encoding of the 35-byte payload
`version_byte || key || checksum`, with `version_byte = 6 <<< 3`, the
checksum being the CRC16 (polynomial 0x1021, initial 0x0000, bit-by-bit
MSB-first, no reflection, no final XOR) of the version byte plus key bytes,
appended low byte first; the result is 56 characters. -/
theorem C6_strkey_codec (key : List Nat) (hlen : key.length = 32) :
    stellar_publicAddressAsStr key =
      base32_encode ((6 <<< 3) :: key ++
        [stellar_crc16 ((6 <<< 3) :: key) % 256,
         stellar_crc16 ((6 <<< 3) :: key) / 256 % 256]) ∧
    stellar_crc16 ((6 <<< 3) :: key) = crc16_spec ((6 <<< 3) :: key) ∧
    (stellar_publicAddressAsStr key).length = 56 := by
  have htake : key.take 32 = key := by rw [← hlen]; simp
  refine ⟨?_, stellar_crc16_eq_spec _, ?_⟩
  · simp only [stellar_publicAddressAsStr, htake, List.cons_append]
  · show (stellar_publicAddressAsStr key).length = 56
    unfold stellar_publicAddressAsStr
    rw [base32_encode_length]
    simp [htake, hlen]

/-- Witness for C6 at the all-zero 32-byte key. -/
theorem C6_strkey_codec_witness :
    (List.replicate 32 (0 : Nat)).length = 32 ∧
    (stellar_publicAddressAsStr (List.replicate 32 0) =
      base32_encode ((6 <<< 3) :: List.replicate 32 0 ++
        [stellar_crc16 ((6 <<< 3) :: List.replicate 32 0) % 256,
         stellar_crc16 ((6 <<< 3) :: List.replicate 32 0) / 256 % 256]) ∧
     stellar_crc16 ((6 <<< 3) :: List.replicate 32 0) =
       crc16_spec ((6 <<< 3) :: List.replicate 32 0) ∧
     (stellar_publicAddressAsStr (List.replicate 32 0)).length = 56) :=
  ⟨by simp, C6_strkey_codec (List.replicate 32 0) (by simp)⟩

theorem signingInitThroughTimebounds_hashAcc (env : StellarEnv) (msg : StellarSignTx) :
    (stellar_signingInitThroughTimebounds env msg).hashAcc =
      (env.sha256Raw (msg.networkPassphrase.take 1024)).take 32 ++ [0, 0, 0, 2] ++
      be32 0 ++
      ((stellar_getPubkeyAtIndex env msg.index).getD (List.replicate 32 0)).take 32 ++
      be32 msg.fee ++ be64 msg.sequenceNumber ++
      (if msg.timeboundsStart > 0 || msg.timeboundsEnd > 0 then
        be32 1 ++ be32 0 ++ be32 msg.timeboundsStart ++ be32 0 ++ be32 msg.timeboundsEnd
      else be32 0) := by
  simp only [stellar_signingInitThroughTimebounds, stellar_hashupdate_address,
    stellar_hashupdate_uint32, stellar_hashupdate_uint64, stellar_hashupdate_bool,
    stellar_hashupdate_bytes]
  split <;> simp [List.append_assoc]

/-- C5: for every header message, the first 36 bytes fed into the session's
hash accumulator by `stellar_signingInit` are the SHA-256 of the network
passphrase followed by the big-endian constant 2, independent of all other
message content (no other field appears in the first 36 bytes). -/
theorem C5_first36_bytes (env : StellarEnv) (prev : StellarTransactionState)
    (msg : StellarSignTx)
    (hsha : (env.sha256Raw (msg.networkPassphrase.take 1024)).length = 32) :
    (stellar_signingInit env prev msg).hashAcc.take 36 =
      env.sha256Raw (msg.networkPassphrase.take 1024) ++ [0, 0, 0, 2] := by
  have hfull : (env.sha256Raw (msg.networkPassphrase.take 1024)).take 32 =
      env.sha256Raw (msg.networkPassphrase.take 1024) := by
    rw [← hsha]; simp
  have h36 : ∀ rest : List Nat,
      ((stellar_signingInitThroughTimebounds env msg).hashAcc ++ rest).take 36 =
        env.sha256Raw (msg.networkPassphrase.take 1024) ++ [0, 0, 0, 2] := by
    intro rest
    rw [signingInitThroughTimebounds_hashAcc, hfull]
    rw [show env.sha256Raw (msg.networkPassphrase.take 1024) ++ [0, 0, 0, 2] ++
        be32 0 ++
        ((stellar_getPubkeyAtIndex env msg.index).getD (List.replicate 32 0)).take 32 ++
        be32 msg.fee ++ be64 msg.sequenceNumber ++
        (if msg.timeboundsStart > 0 || msg.timeboundsEnd > 0 then
          be32 1 ++ be32 0 ++ be32 msg.timeboundsStart ++ be32 0 ++ be32 msg.timeboundsEnd
        else be32 0) ++ rest =
        (env.sha256Raw (msg.networkPassphrase.take 1024) ++ [0, 0, 0, 2]) ++
        (be32 0 ++
         ((stellar_getPubkeyAtIndex env msg.index).getD (List.replicate 32 0)).take 32 ++
         be32 msg.fee ++ be64 msg.sequenceNumber ++
         (if msg.timeboundsStart > 0 || msg.timeboundsEnd > 0 then
           be32 1 ++ be32 0 ++ be32 msg.timeboundsStart ++ be32 0 ++ be32 msg.timeboundsEnd
         else be32 0) ++ rest) from by simp [List.append_assoc]]
    apply List.take_left'
    simp [hsha]
  simp only [stellar_signingInit, stellar_hashupdate_uint32, stellar_hashupdate_uint64,
    stellar_hashupdate_string, stellar_hashupdate_bytes]
  split <;> simp only [List.append_assoc] <;> exact h36 _

/-- A fixed root node for concrete evaluations. -/
def sampleRootNode : HDNode :=
  { privateKey := List.replicate 32 1, publicKey := List.replicate 33 2 }

/-- A concrete environment in which derivation succeeds and the external
hash/signature primitives return fixed values. -/
def sampleEnv : StellarEnv :=
  { sha256Raw := (fun _ => List.replicate 32 3),
    sha256Final := (fun _ => List.replicate 32 4),
    getRootNode := some sampleRootNode,
    ckdCached := (fun n _ => some n),
    fillPublicKey := (fun n => n),
    ed25519Sign := (fun _ _ _ => List.replicate 64 5) }

/-- A concrete header: public network, fee 100, sequence 1, no time bounds,
no memo, one operation. -/
def sampleHeader : StellarSignTx :=
  { networkPassphrase := publicNetworkPassphrase, index := 0, fee := 100,
    sequenceNumber := 1, timeboundsStart := 0, timeboundsEnd := 0,
    memoType := 0, memoText := [], memoId := 0, memoHash := [],
    numOperations := 1 }

/-- Witness for C5 at a concrete environment and header. -/
theorem C5_first36_bytes_witness :
    (sampleEnv.sha256Raw (sampleHeader.networkPassphrase.take 1024)).length = 32 ∧
    (stellar_signingInit sampleEnv initialStellarState sampleHeader).hashAcc.take 36 =
      sampleEnv.sha256Raw (sampleHeader.networkPassphrase.take 1024) ++ [0, 0, 0, 2] :=
  ⟨by simp [sampleEnv], C5_first36_bytes sampleEnv initialStellarState sampleHeader
    (by simp [sampleEnv])⟩

/-- C10: for every header whose `memo_type` is outside `{0,1,2,3,4}`,
`stellar_signingInit` appends only the 4-byte big-endian memo type for the
memo (no payload bytes: the hash continues directly with the operation
count), and the whole step is insensitive to the memo payload fields; the
function reports no error (it has no failure path at all). -/
theorem C10_unknown_memo_type (env : StellarEnv) (prev : StellarTransactionState)
    (msg : StellarSignTx) (h5 : 5 ≤ msg.memoType) :
    (stellar_signingInit env prev msg).hashAcc =
      (stellar_signingInitThroughTimebounds env msg).hashAcc ++
        be32 msg.memoType ++ be32 msg.numOperations ∧
    stellar_signingInit env prev msg =
      stellar_signingInit env prev
        { msg with memoText := [], memoId := 0, memoHash := [] } := by
  obtain ⟨k, hk⟩ : ∃ k, msg.memoType = k + 5 := ⟨msg.memoType - 5, by omega⟩
  constructor
  · simp only [stellar_signingInit, hk, stellar_hashupdate_uint32,
      stellar_hashupdate_uint64, stellar_hashupdate_string, stellar_hashupdate_bytes]
  · simp only [stellar_signingInit, hk, stellar_signingInitThroughTimebounds]

/-- A header with an out-of-range memo type and a nonempty memo payload. -/
def unknownMemoHeader : StellarSignTx :=
  { sampleHeader with memoType := 7, memoText := [1, 2, 3], memoId := 9, memoHash := [8, 8] }

/-- Witness for C10 at memo type 7 with a nonempty memo payload. -/
theorem C10_unknown_memo_type_witness :
    5 ≤ unknownMemoHeader.memoType ∧
    ((stellar_signingInit sampleEnv initialStellarState unknownMemoHeader).hashAcc =
      (stellar_signingInitThroughTimebounds sampleEnv unknownMemoHeader).hashAcc ++
        be32 unknownMemoHeader.memoType ++ be32 unknownMemoHeader.numOperations ∧
     stellar_signingInit sampleEnv initialStellarState unknownMemoHeader =
      stellar_signingInit sampleEnv initialStellarState
        { unknownMemoHeader with memoText := [], memoId := 0, memoHash := [] }) :=
  ⟨by decide, C10_unknown_memo_type sampleEnv initialStellarState unknownMemoHeader
    (by decide)⟩

/-- C7: starting a new session with `stellar_signingInit` yields a state that
is a function of the header message (and the device environment) alone: the
previous session state — including one left by a rejected or aborted
session — is discarded entirely (the C code `memset`s the whole session
struct), so two inits from any two prior states agree on the full session
state, hash accumulator included. -/
theorem C7_signingInit_no_leaked_state (env : StellarEnv)
    (s1 s2 : StellarTransactionState) (msg : StellarSignTx) :
    stellar_signingInit env s1 msg = stellar_signingInit env s2 msg ∧
    (stellar_signingInit env s1 msg).hashAcc = (stellar_signingInit env s2 msg).hashAcc :=
  ⟨rfl, rfl⟩

/-- C9: `stellar_signingAbort` is callable from any state, always leaves the
session inactive while signaling `ActionCancelled` to the caller, and a
second Abort right after a first one leaves the session state unchanged
(and still inactive); being a total function it never fails. -/
theorem C9_abort_idempotent (s : StellarTransactionState) :
    (stellar_signingAbort s).1.signing = false ∧
    (stellar_signingAbort s).2 = [FailureType.ActionCancelled] ∧
    (stellar_signingAbort (stellar_signingAbort s).1).1 = (stellar_signingAbort s).1 :=
  ⟨rfl, rfl, rfl⟩

/-- A CreateAccount operation with no source-account override. -/
def sampleCreateAccountOp : StellarTxOpAck :=
  { sourceAccount := [], type := 0, destinationAccount := List.replicate 32 7,
    amount := 50000000, asset := { type := 0, code := [], issuer := [] } }

/-- The session state after the sample header (declaring one operation) and
one accepted CreateAccount operation: all declared operations confirmed. -/
def completedState : StellarTransactionState :=
  (stellar_addOperation (stellar_signingInit sampleEnv initialStellarState sampleHeader)
    sampleCreateAccountOp true true).1

/-- C3 (amended): with all operations confirmed and a successfully derived
node, finalization signs exactly the finalized digest of the accumulated
byte stream with the keypair derived for the session's account index,
appends nothing to the accumulator, performs no user interaction and sends
no failure — and returns the session state unchanged (it does not reset the
session to Idle; the signing flag keeps its value). -/
theorem C3_finalize_behavior (env : StellarEnv) (s : StellarTransactionState)
    (node : HDNode)
    (_hdone : s.confirmedOperations = s.numOperations)
    (hnode : stellar_deriveNode env s.accountIndex = some node) :
    stellar_getSignatureForActiveTx env s =
      (some (env.ed25519Sign (env.sha256Final s.hashAcc) node.privateKey
        (node.publicKey.drop 1)), s, []) := by
  unfold stellar_getSignatureForActiveTx
  rw [hnode]

set_option maxRecDepth 100000

/-- Witness for C3 at the completed sample session. -/
theorem C3_finalize_behavior_witness :
    completedState.confirmedOperations = completedState.numOperations ∧
    stellar_deriveNode sampleEnv completedState.accountIndex = some sampleRootNode ∧
    stellar_getSignatureForActiveTx sampleEnv completedState =
      (some (sampleEnv.ed25519Sign (sampleEnv.sha256Final completedState.hashAcc)
        sampleRootNode.privateKey (sampleRootNode.publicKey.drop 1)),
       completedState, []) :=
  ⟨by decide, by decide,
   C3_finalize_behavior sampleEnv completedState sampleRootNode (by decide) (by decide)⟩

/-- C3 counterexample: at a concrete completed session,
`stellar_getSignatureForActiveTx` leaves the session active
(`stellar_signing` is still `true` afterwards), refuting the claimed reset
to Idle. -/
theorem C3_no_reset_counterexample :
    completedState.confirmedOperations = completedState.numOperations ∧
    (stellar_getSignatureForActiveTx sampleEnv completedState).2.1.signing = true := by
  decide

/-- The environment of a locked/uninitialized device:
`storage_getRootNode` fails. -/
def lockedEnv : StellarEnv := { sampleEnv with getRootNode := none }

/-- An environment in which child-key derivation arithmetic fails. -/
def ckdFailEnv : StellarEnv := { sampleEnv with ckdCached := fun _ _ => none }

/-- C4 (code evaluation at the failing inputs): when the root-key provider
fails (or child-key derivation fails), `stellar_deriveNode` returns the
null node, and `stellar_getSignatureForActiveTx` / `stellar_getPubkeyAtIndex`
produce no signature or key yet send no failure whatsoever to the caller
(the failure-message list is empty) and leave the session untouched — no
`DerivationUnavailable`-class error is surfaced; in the C code the NULL
result is dereferenced unchecked. -/
theorem C4_derivation_failure_not_surfaced :
    stellar_deriveNode lockedEnv 0 = none ∧
    stellar_deriveNode ckdFailEnv 0 = none ∧
    stellar_getPubkeyAtIndex lockedEnv 0 = none ∧
    stellar_getSignatureForActiveTx lockedEnv completedState =
      (none, completedState, []) :=
  ⟨rfl, rfl, rfl, rfl⟩

/-- C2 (code evaluation at the failing input): starting from the reachable
state in which all `1` declared operations are confirmed and the session is
still active, processing (and accepting) one more CreateAccount operation
makes `confirmed_operations = 2 > 1 = num_operations`, appends 52 bytes to
the hash accumulator, and reports no error — the code silently
over-confirms instead of failing with a `NotSigning`-class error. -/
theorem C2_overconfirmation_eval :
    completedState.signing = true ∧
    completedState.confirmedOperations = completedState.numOperations ∧
    (stellar_addOperation completedState sampleCreateAccountOp true true).1.confirmedOperations = 2 ∧
    (stellar_addOperation completedState sampleCreateAccountOp true true).1.numOperations = 1 ∧
    (stellar_addOperation completedState sampleCreateAccountOp true true).2 = [] ∧
    (stellar_addOperation completedState sampleCreateAccountOp true true).1.hashAcc.length =
      completedState.hashAcc.length + 52 := by
  decide

/-- A Payment operation with a 4-character custom asset (`AlphaNum4`,
code "ABCD") and a nonzero 32-byte issuer. -/
def samplePaymentOp : StellarTxOpAck :=
  { sourceAccount := [], type := 1, destinationAccount := List.replicate 32 7,
    amount := 5,
    asset := { type := 1, code := [65, 66, 67, 68], issuer := List.replicate 32 9 } }

/-- C1 (code evaluation at the failing input): for a Payment with an
AlphaNum4 asset the bytes appended are the source field, the operation
type, the destination address, then immediately the 4 raw code bytes, the
raw issuer and the amount (plus the envelope trailer) — the 4-byte asset
discriminant `update_u32 1` demanded by the claim is NOT hashed between the
destination and the code bytes (the second conjunct shows the
spec-mandated stream differs). -/
theorem C1_payment_asset_discriminant_missing :
    (stellar_addOperation (stellar_signingInit sampleEnv initialStellarState sampleHeader)
        samplePaymentOp true true).1.hashAcc =
      (stellar_signingInit sampleEnv initialStellarState sampleHeader).hashAcc ++
        be32 0 ++ be32 1 ++ (be32 0 ++ List.replicate 32 7) ++
        [65, 66, 67, 68] ++ List.replicate 32 9 ++ be64 5 ++ be32 0 ∧
    (stellar_addOperation (stellar_signingInit sampleEnv initialStellarState sampleHeader)
        samplePaymentOp true true).1.hashAcc ≠
      (stellar_signingInit sampleEnv initialStellarState sampleHeader).hashAcc ++
        be32 0 ++ be32 1 ++ (be32 0 ++ List.replicate 32 7) ++
        be32 1 ++ [65, 66, 67, 68] ++ List.replicate 32 9 ++ be64 5 ++ be32 0 := by
  decide

/-- C8: while a session is active mid-stream (not all declared operations
confirmed yet), an operation message whose type is neither 0 (CreateAccount)
nor 1 (Payment) — with its source-account prompt accepted when an override
is present — appends exactly the source-account field (the address, or a
false boolean when absent) and the 4-byte big-endian operation type, hashes
no type-specific fields, asks no operation confirmation (the result is the
same for every `opOk`), leaves `confirmed_operations` and the signing flag
unchanged, and sends no failure to the caller. -/
theorem C8_unknown_operation_type (s : StellarTransactionState)
    (msg : StellarTxOpAck) (srcOk opOk : Bool)
    (hsign : s.signing = true) (htype : 2 ≤ msg.type)
    (hmid : s.confirmedOperations ≠ s.numOperations)
    (hsrc : msg.sourceAccount.length = 0 ∨ srcOk = true) :
    stellar_addOperation s msg srcOk opOk =
      ({ s with hashAcc := s.hashAcc ++
          (if msg.sourceAccount.length > 0 then be32 0 ++ msg.sourceAccount.take 32
           else be32 0) ++ be32 msg.type }, []) := by
  have ht0 : ¬ msg.type = 0 := by omega
  have ht1 : ¬ msg.type = 1 := by omega
  unfold stellar_addOperation
  rw [hsign]
  simp only [Bool.true_eq_false, if_false]
  by_cases hl : msg.sourceAccount.length > 0
  · have hso : srcOk = true := by
      rcases hsrc with h | h
      · omega
      · exact h
    simp only [hl, if_true, hso]
    simp only [ht0, ht1, if_false]
    simp [stellar_allOperationsConfirmed, stellar_hashupdate_address,
      stellar_hashupdate_uint32, stellar_hashupdate_bytes, hmid, List.append_assoc]
    exact hsign
  · simp only [hl, if_false]
    simp only [ht0, ht1, if_false]
    simp [stellar_allOperationsConfirmed, stellar_hashupdate_bool,
      stellar_hashupdate_uint32, stellar_hashupdate_bytes, hmid, List.append_assoc]
    exact hsign

/-- An operation message with the unsupported type discriminant 5. -/
def unknownTypeOp : StellarTxOpAck :=
  { sourceAccount := [], type := 5, destinationAccount := List.replicate 32 7,
    amount := 1, asset := { type := 0, code := [], issuer := [] } }

/-- Witness for C8 right after the sample header, with the operation
confirmation input set to `false` (it is never consulted). -/
theorem C8_unknown_operation_type_witness :
    (stellar_signingInit sampleEnv initialStellarState sampleHeader).signing = true ∧
    2 ≤ unknownTypeOp.type ∧
    (stellar_signingInit sampleEnv initialStellarState sampleHeader).confirmedOperations ≠
      (stellar_signingInit sampleEnv initialStellarState sampleHeader).numOperations ∧
    (unknownTypeOp.sourceAccount.length = 0 ∨ (true : Bool) = true) ∧
    stellar_addOperation (stellar_signingInit sampleEnv initialStellarState sampleHeader)
        unknownTypeOp true false =
      ({ stellar_signingInit sampleEnv initialStellarState sampleHeader with
          hashAcc := (stellar_signingInit sampleEnv initialStellarState sampleHeader).hashAcc ++
            (if unknownTypeOp.sourceAccount.length > 0 then
              be32 0 ++ unknownTypeOp.sourceAccount.take 32
             else be32 0) ++ be32 unknownTypeOp.type }, []) :=
  ⟨by decide, by decide, by decide, by decide,
   C8_unknown_operation_type (stellar_signingInit sampleEnv initialStellarState sampleHeader)
     unknownTypeOp true false (by decide) (by decide) (by decide) (by decide)⟩
